import Mathlib

/-!
Verification of the OmniAgent turn engine core against its specification.

This file gives a shallow embedding of the three core components:
* the Context Assembler (`SessionManager.get_context_and_update_state`,
  `src/omniagent/session/base.py`),
* the Turn Engine (`Runner._handle_query`, `src/omniagent/ai/runner.py`),
* the Streaming layer (`Runner.run_stream`, `src/omniagent/utils/streaming.py`)
and the persistence entry points (`SessionManager.update_user_session`,
`Session.insert_messages` in `src/omniagent/schemas/mongo/session.py`),
and proves the spec's testable properties about them.
-/

namespace OmniAgent

/-- A fetched message as seen by the context assembler: only the
`turn_number` and `token_count` attributes of the message protocol are
consulted by `get_context_and_update_state`.  An `mid` field keeps distinct
fetched messages distinguishable. -/
structure Msg where
  mid : Nat
  turn_number : Nat
  token_count : Nat
  deriving DecidableEq, Repr

/-- A summary (fields of the mongo `Summary` document used by the core:
content text, token count, inclusive covered turn range). -/
structure Summary where
  content : String
  token_count : Nat
  start_turn_number : Nat
  end_turn_number : Nat
  deriving DecidableEq, Repr

/-- Modelled from the spec: the `State` class (`omniagent/types/state.py` is
not part of the sources at hand; §3 "TurnState" lists its counters):
`turn_number`, `step`, `turns_after_last_summary`,
`total_token_after_last_summary`, `active_summary`.  These are exactly the
fields `SessionManager.update_state` is called with in
`src/omniagent/session/base.py`. -/
structure State where
  turn_number : Nat
  step : Nat
  turns_after_last_summary : Nat
  total_token_after_last_summary : Nat
  active_summary : Option Summary
  deriving DecidableEq, Repr

/-- Boundary turn `end_turn_number = summary.end_turn_number if summary else 0`
(base.py line 315). -/
def endTurnNumber (summary : Option Summary) : Nat :=
  match summary with
  | some s => s.end_turn_number
  | none => 0

/-- Token total of a list of messages
(`sum(m.token_count for m in messages)`, base.py line 323). -/
def tokenSum (l : List Msg) : Nat := (l.map (fun m => m.token_count)).sum

/-- The `for message in older_messages` loop of
`get_context_and_update_state` (base.py lines 335-339): walk the reversed
older messages, add each token count to the running total, prepend the
message to the context, and stop as soon as the running total reaches the
threshold. -/
def pullOlder (threshold : Nat) :
    List Msg → Nat → List Msg → Nat × List Msg
  | [], total, ctx => (total, ctx)
  | m :: rest, total, ctx =>
      let total' := total + m.token_count
      let ctx' := m :: ctx
      if total' ≥ threshold then (total', ctx')
      else pullOlder threshold rest total' ctx'

/-- Method `SessionManager.get_context_and_update_state` (base.py lines 289-351),
as a pure function.  Inputs: the configured `MAX_TOKEN_THRESHOLD`, the
fetched messages (chronological, as returned by `_fetch_context`), the
fetched latest summary, `some session.latest_turn_number` when
`self.session` is set (`none` otherwise), and the pre-call state.  Output:
the context window, the summary, and the state after the method's
`update_state` calls.  `_convert_messages_to_dtos` maps each window entry
one-to-one to a DTO and is modelled as the identity on `Msg`. -/
def get_context_and_update_state (threshold : Nat) (all_messages : List Msg)
    (summary : Option Summary) (sessionLatest : Option Nat) (st : State) :
    List Msg × Option Summary × State :=
  let st1 := match sessionLatest with
    | some latest => { st with turn_number := latest + 1 }
    | none => st
  if all_messages = [] then ([], summary, st1)
  else
    let endT := endTurnNumber summary
    let messages_after_summary := all_messages.filter (fun m => m.turn_number > endT)
    let turns_after_last_summary :=
      ((messages_after_summary.map (fun m => m.turn_number)).dedup).length
    let total_token_after_last_summary := tokenSum messages_after_summary
    let result :=
      if total_token_after_last_summary < threshold then
        let older_messages := (all_messages.filter (fun m => m.turn_number ≤ endT)).reverse
        pullOlder threshold older_messages total_token_after_last_summary messages_after_summary
      else
        (total_token_after_last_summary, messages_after_summary)
    (result.2, summary,
      { st1 with
          turns_after_last_summary := turns_after_last_summary
          total_token_after_last_summary := result.1
          active_summary := summary })

/-! ### Lemmas about the older-message pulling loop -/

/-- Messages already in the context are never removed by the pulling loop. -/
theorem pullOlder_mem (threshold : Nat) (older : List Msg) (total : Nat)
    (ctx : List Msg) {m : Msg} (hm : m ∈ ctx) :
    m ∈ (pullOlder threshold older total ctx).2 := by
  induction older generalizing total ctx with
  | nil => simpa [pullOlder] using hm
  | cons a rest ih =>
      simp only [pullOlder]
      split
      · exact List.mem_cons_of_mem _ hm
      · exact ih _ _ (List.mem_cons_of_mem _ hm)

/-- The running total maintained by the pulling loop is the token total of
the context it builds. -/
theorem pullOlder_total_eq_tokenSum (threshold : Nat) (older : List Msg)
    (total : Nat) (ctx : List Msg) (h : total = tokenSum ctx) :
    (pullOlder threshold older total ctx).1 =
      tokenSum (pullOlder threshold older total ctx).2 := by
  induction older generalizing total ctx with
  | nil => simpa [pullOlder] using h
  | cons a rest ih =>
      simp only [pullOlder]
      split
      · simp [tokenSum, h, Nat.add_comm]
      · exact ih _ _ (by simp [tokenSum, h, Nat.add_comm])

/-- The pulling loop either stops at or above the threshold, or it consumes
the whole older list, prepending it (re-reversed) to the context. -/
theorem pullOlder_exhaust (threshold : Nat) (older : List Msg) (total : Nat)
    (ctx : List Msg) :
    threshold ≤ (pullOlder threshold older total ctx).1 ∨
      (pullOlder threshold older total ctx).2 = older.reverse ++ ctx := by
  induction older generalizing total ctx with
  | nil => right; simp [pullOlder]
  | cons a rest ih =>
      simp only [pullOlder]
      split
      · left; omega
      · rcases ih (total + a.token_count) (a :: ctx) with h | h
        · left; exact h
        · right; rw [h]; simp

/-- Splitting a message list at a turn boundary splits its token total. -/
theorem tokenSum_filter_partition (l : List Msg) (e : Nat) :
    tokenSum (l.filter fun m => m.turn_number ≤ e) +
      tokenSum (l.filter fun m => m.turn_number > e) = tokenSum l := by
  induction l with
  | nil => simp [tokenSum]
  | cons a rest ih =>
      by_cases h : a.turn_number ≤ e
      · have h2 : ¬(a.turn_number > e) := by omega
        simp only [List.filter_cons,
          if_pos (show decide (a.turn_number ≤ e) = true by simpa using h),
          if_neg (show ¬(decide (a.turn_number > e) = true) by simpa using h2)]
        simp only [tokenSum, List.map_cons, List.sum_cons] at ih ⊢
        omega
      · have h2 : a.turn_number > e := by omega
        simp only [List.filter_cons,
          if_neg (show ¬(decide (a.turn_number ≤ e) = true) by simpa using h),
          if_pos (show decide (a.turn_number > e) = true by simpa using h2)]
        simp only [tokenSum, List.map_cons, List.sum_cons] at ih ⊢
        omega

/-- Token totals add over list append. -/
theorem tokenSum_append (a b : List Msg) :
    tokenSum (a ++ b) = tokenSum a + tokenSum b := by
  simp [tokenSum]

/-! ### Claim theorems about the context assembler -/

/-- C1: for every fetched message list and every summary, the window
returned by `get_context_and_update_state` contains every fetched message
whose `turn_number` is strictly greater than the summary's
`end_turn_number` (0 when no summary exists), for every token threshold. -/
theorem assemble_includes_post_summary_messages
    (threshold : Nat) (all_messages : List Msg) (summary : Option Summary)
    (sessionLatest : Option Nat) (st : State) (m : Msg)
    (hm : m ∈ all_messages) (ht : m.turn_number > endTurnNumber summary) :
    m ∈ (get_context_and_update_state threshold all_messages summary sessionLatest st).1 := by
  have hne : ¬(all_messages = []) := by
    intro h; rw [h] at hm; simp at hm
  have hmem : m ∈ all_messages.filter (fun x => x.turn_number > endTurnNumber summary) :=
    List.mem_filter.2 ⟨hm, by simpa using ht⟩
  unfold get_context_and_update_state
  simp only [if_neg hne]
  split
  · exact pullOlder_mem _ _ _ _ hmem
  · exact hmem

/-- Witness for C1 at a concrete input. -/
theorem assemble_includes_post_summary_messages_witness :
    (⟨0, 3, 7⟩ : Msg) ∈ ([⟨0, 3, 7⟩] : List Msg) ∧
    (⟨0, 3, 7⟩ : Msg).turn_number > endTurnNumber none ∧
    (⟨0, 3, 7⟩ : Msg) ∈
      (get_context_and_update_state 100 [⟨0, 3, 7⟩] none (some 0)
        ⟨0, 0, 0, 0, none⟩).1 :=
  ⟨by simp, by decide,
    assemble_includes_post_summary_messages 100 [⟨0, 3, 7⟩] none (some 0)
      ⟨0, 0, 0, 0, none⟩ ⟨0, 3, 7⟩ (by simp) (by decide)⟩

/-- C2: for every token threshold, the assembled window's token total is
either at least the threshold or equal to the token total of all fetched
messages. -/
theorem assembled_window_meets_budget_or_includes_all
    (threshold : Nat) (all_messages : List Msg) (summary : Option Summary)
    (sessionLatest : Option Nat) (st : State) :
    threshold ≤
        tokenSum (get_context_and_update_state threshold all_messages summary sessionLatest st).1 ∨
      tokenSum (get_context_and_update_state threshold all_messages summary sessionLatest st).1 =
        tokenSum all_messages := by
  by_cases hne : all_messages = []
  · subst hne
    right
    unfold get_context_and_update_state
    simp [tokenSum]
  · unfold get_context_and_update_state
    simp only [if_neg hne]
    by_cases hlt :
        tokenSum (all_messages.filter (fun m => m.turn_number > endTurnNumber summary)) <
          threshold
    · simp only [if_pos hlt]
      have hsum := pullOlder_total_eq_tokenSum threshold
        ((all_messages.filter (fun m => m.turn_number ≤ endTurnNumber summary)).reverse)
        (tokenSum (all_messages.filter (fun m => m.turn_number > endTurnNumber summary)))
        (all_messages.filter (fun m => m.turn_number > endTurnNumber summary)) rfl
      rcases pullOlder_exhaust threshold
        ((all_messages.filter (fun m => m.turn_number ≤ endTurnNumber summary)).reverse)
        (tokenSum (all_messages.filter (fun m => m.turn_number > endTurnNumber summary)))
        (all_messages.filter (fun m => m.turn_number > endTurnNumber summary)) with h | h
      · left
        rw [← hsum]
        exact h
      · right
        rw [h, List.reverse_reverse, tokenSum_append]
        exact tokenSum_filter_partition all_messages (endTurnNumber summary)
    · left
      simp only [if_neg hlt]
      omega

/-- C10: on an empty fetched message list, the assembler returns an empty
window with the fetched summary and leaves the state counters
(`turns_after_last_summary`, `total_token_after_last_summary`,
`active_summary`, `step`) untouched; only `turn_number` is updated (to
`latest_turn_number + 1` when a session exists). -/
theorem empty_fetch_returns_early
    (threshold : Nat) (summary : Option Summary) (sessionLatest : Option Nat)
    (st : State) :
    (get_context_and_update_state threshold [] summary sessionLatest st).1 = [] ∧
    (get_context_and_update_state threshold [] summary sessionLatest st).2.1 = summary ∧
    (get_context_and_update_state threshold [] summary sessionLatest st).2.2 =
      { st with
          turn_number :=
            match sessionLatest with
            | some latest => latest + 1
            | none => st.turn_number } := by
  cases sessionLatest <;> simp [get_context_and_update_state]

/-- Counterexample to C8 as stated: with a summary ending at turn 1, fetched
messages `[turn 1 (5 tokens), turn 2 (3 tokens)]` and threshold 100, the
assembler pulls the older message into the window and stores the running
total 8 — not the after-partition total 3 — into
`total_token_after_last_summary`. -/
theorem state_total_token_is_not_after_partition_sum :
    ((get_context_and_update_state 100 [⟨0, 1, 5⟩, ⟨1, 2, 3⟩]
        (some ⟨"s", 1, 1, 1⟩) (some 5) ⟨0, 0, 0, 0, none⟩).2.2).total_token_after_last_summary ≠
      tokenSum (([⟨0, 1, 5⟩, ⟨1, 2, 3⟩] : List Msg).filter
        (fun m => m.turn_number > endTurnNumber (some ⟨"s", 1, 1, 1⟩))) := by
  decide

/-- C8 (amended): after assembly on a non-empty fetched list,
`turns_after_last_summary` is the number of distinct turn numbers in the
after-summary partition, and `total_token_after_last_summary` is the token
total of the assembled window (the after-partition plus any older messages
pulled in to meet the threshold). -/
theorem state_counters_reflect_window
    (threshold : Nat) (all_messages : List Msg) (summary : Option Summary)
    (sessionLatest : Option Nat) (st : State) (h : all_messages ≠ []) :
    ((get_context_and_update_state threshold all_messages summary sessionLatest st).2.2).turns_after_last_summary =
        ((all_messages.filter (fun m => m.turn_number > endTurnNumber summary)).map
          (fun m => m.turn_number)).dedup.length ∧
      ((get_context_and_update_state threshold all_messages summary sessionLatest st).2.2).total_token_after_last_summary =
        tokenSum (get_context_and_update_state threshold all_messages summary sessionLatest st).1 := by
  unfold get_context_and_update_state
  simp only [if_neg h]
  refine ⟨by trivial, ?_⟩
  by_cases hlt :
      tokenSum (all_messages.filter (fun m => m.turn_number > endTurnNumber summary)) <
        threshold
  · simp only [if_pos hlt]
    exact pullOlder_total_eq_tokenSum _ _ _ _ rfl
  · simp only [if_neg hlt]

/-- Witness for C8 (amended) at a concrete input. -/
theorem state_counters_reflect_window_witness :
    ([⟨0, 1, 5⟩, ⟨1, 2, 3⟩] : List Msg) ≠ [] ∧
    (((get_context_and_update_state 100 [⟨0, 1, 5⟩, ⟨1, 2, 3⟩]
        (some ⟨"s", 1, 1, 1⟩) (some 5) ⟨0, 0, 0, 0, none⟩).2.2).turns_after_last_summary =
      ((([⟨0, 1, 5⟩, ⟨1, 2, 3⟩] : List Msg).filter
        (fun m => m.turn_number > endTurnNumber (some ⟨"s", 1, 1, 1⟩))).map
          (fun m => m.turn_number)).dedup.length ∧
    ((get_context_and_update_state 100 [⟨0, 1, 5⟩, ⟨1, 2, 3⟩]
        (some ⟨"s", 1, 1, 1⟩) (some 5) ⟨0, 0, 0, 0, none⟩).2.2).total_token_after_last_summary =
      tokenSum (get_context_and_update_state 100 [⟨0, 1, 5⟩, ⟨1, 2, 3⟩]
        (some ⟨"s", 1, 1, 1⟩) (some 5) ⟨0, 0, 0, 0, none⟩).1) :=
  ⟨by decide,
    state_counters_reflect_window 100 [⟨0, 1, 5⟩, ⟨1, 2, 3⟩]
      (some ⟨"s", 1, 1, 1⟩) (some 5) ⟨0, 0, 0, 0, none⟩ (by decide)⟩

/-! ### Turn engine (`Runner._handle_query`, `src/omniagent/ai/runner.py`) -/

/-- Message roles of `MessageDTO`. -/
inductive Role
  | human
  | ai
  | system
  | tool
  deriving DecidableEq, Repr

/-- The part of `MessageDTO` the turn engine manipulates: message id, role,
and the accumulated text content of its parts. -/
structure MsgDTO where
  id : String
  role : Role
  content : String
  deriving DecidableEq, Repr

/-- Constructor `MessageDTO.create_human_message(text=query, message_id=query_id)`
(runner.py line 140). -/
def create_human_message (text message_id : String) : MsgDTO :=
  ⟨message_id, Role.human, text⟩

/-- Constructor `MessageDTO.create_ai_message(message_id=...)`, whose text
content the provider accumulates in place during generation. -/
def create_ai_message (message_id content : String) : MsgDTO :=
  ⟨message_id, Role.ai, content⟩

/-- The fixed apology text of `SessionManager.create_fallback_messages`
(base.py line 368). -/
def fallbackText : String :=
  "I apologize, but something went wrong while processing your request. Please try again."

/-- Method `SessionManager.create_fallback_messages` (base.py lines
353-372): the original user query paired with a fresh apology AI message
(its id drawn from `generate_id`, passed in as `error_id`). -/
def create_fallback_messages (user_query_dto : MsgDTO) (error_id : String) :
    List MsgDTO :=
  [user_query_dto, create_ai_message error_id fallbackText]

/-- Constant `config.MAX_STEPS` (config.py line 58). -/
def MAX_STEPS : Nat := 10

/-- The exception kinds `Runner._handle_query` distinguishes:
`SessionNotFoundError`, `UserNotFoundError`, `MessageRetrievalError`
(re-raised unchanged), `MaxStepsReachedError` (carrying current/max step
counts), and any other provider/runtime exception. -/
inductive Exc
  | sessionNotFound
  | userNotFound
  | messageRetrieval
  | maxStepsReached (current_step max_steps : Nat)
  | providerFailure (message : String)
  deriving DecidableEq, Repr

/-- Predicate for the identity-resolution errors listed in the dedicated
`except (SessionNotFoundError, UserNotFoundError, MessageRetrievalError)`
clause (runner.py line 212). -/
def Exc.isIdentity : Exc → Bool
  | .sessionNotFound => true
  | .userNotFound => true
  | .messageRetrieval => true
  | _ => false

/-- Record `QueryResult` (runner.py lines 35-41). -/
structure QueryResult where
  messages : List MsgDTO
  summary : Option Summary
  fallback : Bool
  regenerated_summary : Bool
  deriving DecidableEq, Repr

/-- One awaited round of `_generate_response_and_metadata` as observed by
the engine.  The LLM provider is an external collaborator (spec §1), so
each round is an oracle value: the provider returns
`(tool_call, returned_summary)` having accumulated `ai_content` into the
shared AI message; or the enclosing task is cancelled mid-flight, leaving
the partial content accumulated so far in the AI message; or the await
raises an exception. -/
inductive GenOutcome
  | ok (tool_call : Bool) (returned_summary : Option Summary) (ai_content : String)
  | cancelled (accumulated_content : String)
  | raised (e : Exc)
  deriving DecidableEq, Repr

/-- How the `while not turn_completed` loop of `_handle_query` ends:
normal completion with the final AI message and the last captured new
summary, cancellation mid-generation with the partial AI message, or a
raised exception. -/
inductive LoopExit
  | completed (ai : MsgDTO) (new_summary : Option Summary)
  | cancelledMidStep (ai : MsgDTO)
  | raisedStep (e : Exc)
  deriving DecidableEq, Repr

/-- Body of `_handle_query`'s `while not turn_completed` loop (runner.py
lines 145-193), one oracle consultation per iteration `iter`.  `fuel` is a
structural-termination token kept equal to `max_steps - step` by `runLoop`;
the loop terminates because `step` grows by one per tool-call iteration and
the engine raises `MaxStepsReachedError` as soon as `step > max_steps`, so
the `fuel = 0` default (raising the same condition) is unreachable from
`runLoop` entry points. -/
def runLoopAux (oracle : Nat → GenOutcome) (max_steps : Nat) (ai_id : String) :
    Nat → Nat → List MsgDTO → Option Summary → Nat → LoopExit
  | fuel, iter, conversation_history, new_summary, step =>
    match oracle iter with
    | .cancelled accumulated_content =>
        .cancelledMidStep (create_ai_message ai_id accumulated_content)
    | .raised e => .raisedStep e
    | .ok tool_call returned_summary ai_content =>
        let new_summary' := match returned_summary with
          | some s => some s
          | none => new_summary
        if tool_call then
          let step' := step + 1
          if step' > max_steps then
            .raisedStep (.maxStepsReached step' max_steps)
          else
            match fuel with
            | 0 => .raisedStep (.maxStepsReached step' max_steps)
            | fuel' + 1 =>
                runLoopAux oracle max_steps ai_id fuel' (iter + 1)
                  (conversation_history ++ [create_ai_message ai_id ai_content])
                  new_summary' step'
        else
          .completed (create_ai_message ai_id ai_content) new_summary'

/-- The `while not turn_completed` loop of `_handle_query`, entered with
`tool_call = false`, `new_summary = None` and the session state's `step`
counter. -/
def runLoop (oracle : Nat → GenOutcome) (max_steps : Nat) (ai_id : String)
    (conversation_history : List MsgDTO) (step : Nat) : LoopExit :=
  runLoopAux oracle max_steps ai_id (max_steps - step) 0 conversation_history
    none step

/-- Provider call `build_system_message(instructions, summary)` (external
collaborator): a system message built from the agent instructions and the
summary text, if any. -/
def build_system_message (instructions : String)
    (summaryContent : Option String) : MsgDTO :=
  ⟨"system", Role.system,
    instructions ++ (match summaryContent with | some c => c | none => "")⟩

/-- The conversation assembled on the first loop iteration (runner.py lines
146-153): system message from instructions and summary, then the fetched
context window, then the user query. -/
def initialHistory (instructions : String)
    (previous_conversation : List MsgDTO) (summary : Option Summary)
    (user_query_message : MsgDTO) : List MsgDTO :=
  build_system_message instructions (summary.map (fun s => s.content)) ::
    previous_conversation ++ [user_query_message]

/-- Summary recovery on the generic failure path (runner.py lines 220-223):
prefer the in-memory summary, else the latest persisted one
(`get_latest_summary_for_fallback`) when a session exists. -/
def recoverSummary (summary : Option Summary) (hasSession : Bool)
    (latestPersisted : Option Summary) : Option Summary :=
  match summary with
  | some s => some s
  | none => if hasSession then latestPersisted else none

/-- Method `Runner._handle_query` (runner.py lines 125-230).  `fetch` is
the outcome of `get_context_and_update_state` — the fetched window and
summary, or the exception that call raised inside the `try` block;
`oracle` gives each loop iteration's provider outcome; `latestPersisted`
is what `get_latest_summary_for_fallback` would return.  A raised
exception is re-raised when it is an identity error and otherwise
converted to the fallback `QueryResult`; cancellation returns the partial
AI message with the pre-existing summary. -/
def handle_query (fetch : Except Exc (List MsgDTO × Option Summary))
    (oracle : Nat → GenOutcome) (max_steps : Nat)
    (query query_id ai_id error_id instructions : String)
    (hasSession : Bool) (latestPersisted : Option Summary) (step0 : Nat) :
    Except Exc QueryResult :=
  match fetch with
  | .error e =>
      if e.isIdentity then .error e
      else
        .ok ⟨create_fallback_messages (create_human_message query query_id) error_id,
             recoverSummary none hasSession latestPersisted, true, false⟩
  | .ok (previous_conversation, summary) =>
      match runLoop oracle max_steps ai_id
          (initialHistory instructions previous_conversation summary
            (create_human_message query query_id)) step0 with
      | .completed ai new_summary =>
          .ok ⟨[create_human_message query query_id, ai],
               (match new_summary with | some s => some s | none => summary),
               false, new_summary.isSome⟩
      | .cancelledMidStep ai =>
          .ok ⟨[create_human_message query query_id, ai], summary, false, false⟩
      | .raisedStep e =>
          if e.isIdentity then .error e
          else
            .ok ⟨create_fallback_messages (create_human_message query query_id) error_id,
                 recoverSummary summary hasSession latestPersisted, true, false⟩

/-! ### Persistence (`Session.insert_messages`, `update_user_session`) -/

/-- A persisted message row written by `Session.insert_messages`
(mongo/session.py lines 529-542): the DTO content plus the turn number and
the `previous_summary` backlink stamped at insert time. -/
structure StoredMsg where
  turn_number : Nat
  previous_summary : Option Summary
  dto : MsgDTO
  deriving DecidableEq, Repr

/-- The durable state behind the persistence gateway: the messages
collection, the committed summaries, and the session document's
`latest_turn_number`. -/
structure Store where
  msgs : List StoredMsg
  summaries : List Summary
  latest_turn_number : Nat
  deriving DecidableEq, Repr

/-- Method `Session.insert_messages` (mongo/session.py lines 492-562):
empty batches return early without touching the store; otherwise a single
transaction inserts the tagged message documents and sets the session's
`latest_turn_number` to `turn_number` (`_update_latest_turn_number`,
lines 551-552).  `commitOk` models whether that transaction commits; an
aborted transaction — surfaced by the method as `MessageCreationError` —
leaves the store unchanged.  The returned flag is `false` exactly when the
method raises. -/
def insert_messages (store : Store) (messages : List MsgDTO)
    (turn_number : Nat) (previous_summary : Option Summary)
    (commitOk : Bool) : Store × Bool :=
  if messages.isEmpty then (store, true)
  else if commitOk then
    ({ store with
        msgs := store.msgs ++
          messages.map (fun m => ⟨turn_number, previous_summary, m⟩)
        latest_turn_number := turn_number }, true)
  else (store, false)

/-- Observable persistence operations of `update_user_session`, recorded in
execution order, for the sequencing claims.  A `messageInsert` event
records an `insert_messages` call with its batch, the `previous_summary`
value stamped on the batch, and whether the write committed. -/
inductive DbEvent
  | summaryWrite (s : Summary) (committed : Bool)
  | messageInsert (batch : List MsgDTO) (previous_summary : Option Summary)
      (committed : Bool)
  deriving DecidableEq, Repr

/-- Rescue (`except`) branch of `SessionManager.update_user_session`
(base.py lines 255-268): if the original batch is empty return it as is;
otherwise build the fallback pair from the first message and insert it —
with `previous_summary` set to the method's original `summary` argument
(base.py line 267), not the freshly persisted document.  Returns `none`
for the message list when this second insert itself raises. -/
def updateSessionRescue (store : Store) (events : List DbEvent)
    (messages : List MsgDTO) (summary : Option Summary) (turn_number : Nat)
    (insert2Ok : Bool) (error_id : String) :
    Store × List DbEvent × Option (List MsgDTO) :=
  match messages with
  | [] => (store, events, some [])
  | m0 :: _ =>
      let fb := create_fallback_messages m0 error_id
      let r := insert_messages store fb turn_number summary insert2Ok
      if r.2 then (r.1, events ++ [.messageInsert fb summary true], some fb)
      else (r.1, events ++ [.messageInsert fb summary false], none)

/-- Method `SessionManager.update_user_session` (base.py lines 229-270):
without a session it returns the messages untouched; otherwise, inside a
`try`, when `regenerated_summary` holds and a summary is present it first
persists the summary (`create_with_session_id`, modelled by `createOk`
deciding whether that write commits) and then inserts the turn's messages
with `previous_summary` pointing at the persisted summary; any exception
falls into the rescue branch.  Output: the final store, the ordered
persistence events, and the messages the method returns (`none` when it
raises). -/
def update_user_session (hasSession : Bool) (store : Store)
    (turn_number : Nat) (messages : List MsgDTO) (summary : Option Summary)
    (regenerated_summary : Bool) (createOk insert1Ok insert2Ok : Bool)
    (error_id : String) : Store × List DbEvent × Option (List MsgDTO) :=
  if ¬hasSession then (store, [], some messages)
  else
    match regenerated_summary, summary with
    | true, some s =>
        if createOk then
          let store1 := { store with summaries := store.summaries ++ [s] }
          let r := insert_messages store1 messages turn_number (some s) insert1Ok
          if r.2 then
            (r.1, [.summaryWrite s true, .messageInsert messages (some s) true],
              some messages)
          else
            updateSessionRescue store1
              [.summaryWrite s true, .messageInsert messages (some s) false]
              messages summary turn_number insert2Ok error_id
        else
          updateSessionRescue store [.summaryWrite s false] messages summary
            turn_number insert2Ok error_id
    | _, _ =>
        let r := insert_messages store messages turn_number summary insert1Ok
        if r.2 then (r.1, [.messageInsert messages summary true], some messages)
        else
          updateSessionRescue store [.messageInsert messages summary false]
            messages summary turn_number insert2Ok error_id

/-- Method `Runner._run_with_optional_stream` (runner.py lines 236-280)
from the `_handle_query` result on: identity errors propagate to the
caller; every returned `QueryResult` is persisted via
`update_user_session`.  That persistence call is wrapped in
`asyncio.shield` (runner.py line 254), so a cancellation of the enclosing
task cannot interrupt it: the model reflects the shield by executing the
write to completion on every returned result — including the one produced
by the cancellation path. -/
def run_with_optional_stream (handled : Except Exc QueryResult)
    (store : Store) (turn_number : Nat) (createOk insert1Ok insert2Ok : Bool)
    (error_id : String) :
    Except Exc (Store × List DbEvent × Option (List MsgDTO)) :=
  match handled with
  | .error e => .error e
  | .ok r =>
      .ok (update_user_session true store turn_number r.messages r.summary
        r.regenerated_summary createOk insert1Ok insert2Ok error_id)

/-! ### Streaming layer (`Runner.run_stream`, `utils/streaming.py`) -/

/-- Function `format_sse_event` (streaming.py lines 35-45), applied to the
one-line JSON serialization of an event (`json.dumps` is external; events
are modelled by their serialized JSON strings). -/
def format_sse_event (eventJson : String) : String :=
  "data: " ++ eventJson ++ "\n\n"

/-- Function `format_sse_done` (streaming.py lines 48-55): the terminal
marker built from the `[DONE]` sentinel. -/
def format_sse_done : String := "data: [DONE]\n\n"

/-- Outcome of the background `run_chat` task (runner.py lines 314-330):
success carrying the serialized result dict, cancellation, or an error
carrying its text. -/
inductive RunOutcome
  | success (resultJson : String)
  | cancelled
  | errored (errorText : String)
  deriving DecidableEq, Repr

/-- The terminal event `run_chat` enqueues for each outcome (runner.py
lines 321-327), serialized: a data-session event carrying the result on
success, a cancelled event on cancellation, an error event with
`errorText` on failure. -/
def terminal_event_json : RunOutcome → String
  | .success resultJson =>
      "\x7b\"type\": \"data-session\", \"data\": " ++ resultJson ++ "\x7d"
  | .cancelled =>
      "\x7b\"type\": \"cancelled\", \"message\": \"Stream cancelled by user\"\x7d"
  | .errored errorText =>
      "\x7b\"type\": \"error\", \"errorText\": \"" ++ errorText ++ "\"\x7d"

/-- Queue contents produced by `run_chat` as consumed by the generator:
the provider events pushed by `stream_callback` during the run, then the
outcome's terminal event, then — in a `finally`, hence in every outcome —
the `None` end-of-stream sentinel (runner.py line 330). -/
def run_chat_queue (streamed : List String) (outcome : RunOutcome) :
    List (Option String) :=
  streamed.map some ++ [some (terminal_event_json outcome), none]

/-- Generator `event_generator` (runner.py lines 335-341): pull events
until the sentinel, yielding each one framed by `format_sse_event`, then
yield the done marker.  A queue that never delivers a sentinel leaves the
real generator suspended on `queue.get()`, emitting nothing further. -/
def event_generator : List (Option String) → List String
  | [] => []
  | none :: _ => [format_sse_done]
  | some e :: rest => format_sse_event e :: event_generator rest

/-! ### Claim theorems about the turn engine, persistence and streaming -/

/-- The assembler always sets `state.turn_number` to
`session.latest_turn_number + 1` when a session is present (base.py line
307), in both the empty-fetch and non-empty-fetch branches. -/
theorem turn_number_after_assembly (threshold : Nat) (all_messages : List Msg)
    (summary : Option Summary) (latest : Nat) (st : State) :
    ((get_context_and_update_state threshold all_messages summary
        (some latest) st).2.2).turn_number = latest + 1 := by
  unfold get_context_and_update_state
  by_cases hne : all_messages = [] <;> simp [hne]

/-- C3: the context assembler computes the next turn number as
`session.latest_turn_number + 1`; durably writing a non-empty turn batch
at that turn number advances `latest_turn_number` by exactly one, together
with the batch itself; and a write whose transaction does not commit
leaves the store — messages and `latest_turn_number` alike — unchanged. -/
theorem latest_turn_number_advances_by_one
    (threshold : Nat) (all_messages : List Msg)
    (fetchedSummary : Option Summary) (st : State) (store : Store)
    (messages : List MsgDTO) (previous_summary : Option Summary)
    (h : messages ≠ []) :
    ((get_context_and_update_state threshold all_messages fetchedSummary
        (some store.latest_turn_number) st).2.2).turn_number =
      store.latest_turn_number + 1 ∧
    (insert_messages store messages
        ((get_context_and_update_state threshold all_messages fetchedSummary
          (some store.latest_turn_number) st).2.2).turn_number
        previous_summary true).1.latest_turn_number =
      store.latest_turn_number + 1 ∧
    (insert_messages store messages
        ((get_context_and_update_state threshold all_messages fetchedSummary
          (some store.latest_turn_number) st).2.2).turn_number
        previous_summary true).1.msgs =
      store.msgs ++ messages.map
        (fun m => ⟨store.latest_turn_number + 1, previous_summary, m⟩) ∧
    (insert_messages store messages
        ((get_context_and_update_state threshold all_messages fetchedSummary
          (some store.latest_turn_number) st).2.2).turn_number
        previous_summary false).1 = store := by
  have hT := turn_number_after_assembly threshold all_messages fetchedSummary
    store.latest_turn_number st
  have hne : messages.isEmpty = false := by
    cases messages with
    | nil => exact absurd rfl h
    | cons a l => rfl
  rw [hT]
  unfold insert_messages
  simp [hne]

/-- Witness for C3 at a concrete input. -/
theorem latest_turn_number_advances_by_one_witness :
    ([create_human_message "q" "qid"] : List MsgDTO) ≠ [] ∧
    (((get_context_and_update_state 50 [] none
        (some (Store.latest_turn_number ⟨[], [], 7⟩)) ⟨0, 0, 0, 0, none⟩).2.2).turn_number =
      Store.latest_turn_number ⟨[], [], 7⟩ + 1 ∧
    (insert_messages ⟨[], [], 7⟩ [create_human_message "q" "qid"]
        ((get_context_and_update_state 50 [] none
          (some (Store.latest_turn_number ⟨[], [], 7⟩)) ⟨0, 0, 0, 0, none⟩).2.2).turn_number
        none true).1.latest_turn_number =
      Store.latest_turn_number ⟨[], [], 7⟩ + 1 ∧
    (insert_messages ⟨[], [], 7⟩ [create_human_message "q" "qid"]
        ((get_context_and_update_state 50 [] none
          (some (Store.latest_turn_number ⟨[], [], 7⟩)) ⟨0, 0, 0, 0, none⟩).2.2).turn_number
        none true).1.msgs =
      Store.msgs ⟨[], [], 7⟩ ++ [create_human_message "q" "qid"].map
        (fun m => ⟨Store.latest_turn_number ⟨[], [], 7⟩ + 1, none, m⟩) ∧
    (insert_messages ⟨[], [], 7⟩ [create_human_message "q" "qid"]
        ((get_context_and_update_state 50 [] none
          (some (Store.latest_turn_number ⟨[], [], 7⟩)) ⟨0, 0, 0, 0, none⟩).2.2).turn_number
        none false).1 = ⟨[], [], 7⟩) :=
  ⟨by decide,
    latest_turn_number_advances_by_one 50 [] none ⟨0, 0, 0, 0, none⟩
      ⟨[], [], 7⟩ [create_human_message "q" "qid"] none (by decide)⟩

/-- C4: a run in which the step counter exceeds the configured maximum —
the loop raises `MaxStepsReachedError` — makes `_handle_query` return a
fallback `QueryResult` (fallback true, regenerated_summary false, exactly
the user query paired with the fixed apology message) instead of
re-raising the step-limit condition to the caller. -/
theorem step_limit_becomes_fallback_result
    (oracle : Nat → GenOutcome) (max_steps : Nat)
    (query query_id ai_id error_id instructions : String)
    (hasSession : Bool) (latestPersisted : Option Summary) (step0 : Nat)
    (previous_conversation : List MsgDTO) (summary : Option Summary)
    (cur mx : Nat)
    (h : runLoop oracle max_steps ai_id
        (initialHistory instructions previous_conversation summary
          (create_human_message query query_id)) step0 =
      .raisedStep (.maxStepsReached cur mx)) :
    handle_query (.ok (previous_conversation, summary)) oracle max_steps
        query query_id ai_id error_id instructions hasSession latestPersisted
        step0 =
      .ok ⟨[create_human_message query query_id,
            create_ai_message error_id fallbackText],
           recoverSummary summary hasSession latestPersisted, true, false⟩ := by
  simp only [handle_query]
  rw [h]
  rfl

/-- Witness for C4: an oracle that always requests another tool call hits
the step limit (step 11 exceeds `MAX_STEPS = 10`). -/
theorem step_limit_becomes_fallback_result_witness :
    runLoop (fun _ => .ok true none "t") MAX_STEPS "ai"
        (initialHistory "inst" [] none (create_human_message "q" "qid")) 0 =
      .raisedStep (.maxStepsReached 11 10) ∧
    handle_query (.ok ([], none)) (fun _ => .ok true none "t") MAX_STEPS
        "q" "qid" "ai" "eid" "inst" true none 0 =
      .ok ⟨[create_human_message "q" "qid",
            create_ai_message "eid" fallbackText],
           recoverSummary none true none, true, false⟩ :=
  ⟨by rfl,
    step_limit_becomes_fallback_result (fun _ => .ok true none "t") MAX_STEPS
      "q" "qid" "ai" "eid" "inst" true none 0 [] none 11 10 (by rfl)⟩

/-- C6: when the loop raises `e`, identity-resolution errors propagate out
of `_handle_query` unchanged while every other exception is converted to a
well-formed fallback result; the same routing applies when the context
fetch inside the `try` block raises `e`. -/
theorem identity_errors_raise_other_errors_become_fallback
    (oracle : Nat → GenOutcome) (max_steps : Nat)
    (query query_id ai_id error_id instructions : String)
    (hasSession : Bool) (latestPersisted : Option Summary) (step0 : Nat)
    (previous_conversation : List MsgDTO) (summary : Option Summary)
    (e : Exc)
    (h : runLoop oracle max_steps ai_id
        (initialHistory instructions previous_conversation summary
          (create_human_message query query_id)) step0 = .raisedStep e) :
    handle_query (.ok (previous_conversation, summary)) oracle max_steps
        query query_id ai_id error_id instructions hasSession latestPersisted
        step0 =
      (if e.isIdentity then .error e
       else .ok ⟨create_fallback_messages (create_human_message query query_id)
                   error_id,
                 recoverSummary summary hasSession latestPersisted, true,
                 false⟩) ∧
    handle_query (.error e) oracle max_steps query query_id ai_id error_id
        instructions hasSession latestPersisted step0 =
      (if e.isIdentity then .error e
       else .ok ⟨create_fallback_messages (create_human_message query query_id)
                   error_id,
                 recoverSummary none hasSession latestPersisted, true,
                 false⟩) := by
  constructor
  · simp only [handle_query]
    rw [h]
  · simp only [handle_query]

/-- Witness for C6 with a concrete identity error. -/
theorem identity_errors_raise_witness :
    runLoop (fun _ => .raised .sessionNotFound) MAX_STEPS "ai"
        (initialHistory "inst" [] none (create_human_message "q" "qid")) 0 =
      .raisedStep .sessionNotFound ∧
    (handle_query (.ok ([], none)) (fun _ => .raised .sessionNotFound)
        MAX_STEPS "q" "qid" "ai" "eid" "inst" true none 0 =
      (if Exc.isIdentity .sessionNotFound then .error .sessionNotFound
       else .ok ⟨create_fallback_messages (create_human_message "q" "qid")
                   "eid",
                 recoverSummary none true none, true, false⟩) ∧
     handle_query (.error .sessionNotFound) (fun _ => .raised .sessionNotFound)
        MAX_STEPS "q" "qid" "ai" "eid" "inst" true none 0 =
      (if Exc.isIdentity .sessionNotFound then .error .sessionNotFound
       else .ok ⟨create_fallback_messages (create_human_message "q" "qid")
                   "eid",
                 recoverSummary none true none, true, false⟩)) :=
  ⟨by rfl,
    identity_errors_raise_other_errors_become_fallback
      (fun _ => .raised .sessionNotFound) MAX_STEPS "q" "qid" "ai" "eid"
      "inst" true none 0 [] none .sessionNotFound (by rfl)⟩

/-- C5: cancellation while a model invocation is in flight yields exactly
the user query and the partially accumulated AI message with the
pre-existing summary fetched at context assembly (not the in-flight one),
`fallback = false`, `regenerated_summary = false`; and the shielded
persistence step still writes that pair durably. -/
theorem cancellation_preserves_partial_work
    (oracle : Nat → GenOutcome) (max_steps : Nat)
    (query query_id ai_id error_id instructions : String)
    (hasSession : Bool) (latestPersisted : Option Summary) (step0 : Nat)
    (previous_conversation : List MsgDTO) (summary : Option Summary)
    (ai : MsgDTO) (store : Store) (turn_number : Nat)
    (h : runLoop oracle max_steps ai_id
        (initialHistory instructions previous_conversation summary
          (create_human_message query query_id)) step0 =
      .cancelledMidStep ai) :
    handle_query (.ok (previous_conversation, summary)) oracle max_steps
        query query_id ai_id error_id instructions hasSession latestPersisted
        step0 =
      .ok ⟨[create_human_message query query_id, ai], summary, false, false⟩ ∧
    run_with_optional_stream
        (handle_query (.ok (previous_conversation, summary)) oracle max_steps
          query query_id ai_id error_id instructions hasSession latestPersisted
          step0)
        store turn_number true true true error_id =
      .ok ({ store with
              msgs := store.msgs ++
                [⟨turn_number, summary, create_human_message query query_id⟩,
                 ⟨turn_number, summary, ai⟩]
              latest_turn_number := turn_number },
           [.messageInsert [create_human_message query query_id, ai] summary
              true],
           some [create_human_message query query_id, ai]) := by
  have h1 : handle_query (.ok (previous_conversation, summary)) oracle
      max_steps query query_id ai_id error_id instructions hasSession
      latestPersisted step0 =
      .ok ⟨[create_human_message query query_id, ai], summary, false,
           false⟩ := by
    simp only [handle_query]
    rw [h]
  refine ⟨h1, ?_⟩
  rw [h1]
  cases summary <;> rfl

/-- Witness for C5 at a concrete input. -/
theorem cancellation_preserves_partial_work_witness :
    runLoop (fun _ => .cancelled "part") MAX_STEPS "ai"
        (initialHistory "inst" [] (some ⟨"c", 2, 1, 1⟩)
          (create_human_message "q" "qid")) 0 =
      .cancelledMidStep (create_ai_message "ai" "part") ∧
    (handle_query (.ok ([], some ⟨"c", 2, 1, 1⟩)) (fun _ => .cancelled "part")
        MAX_STEPS "q" "qid" "ai" "eid" "inst" true none 0 =
      .ok ⟨[create_human_message "q" "qid", create_ai_message "ai" "part"],
           some ⟨"c", 2, 1, 1⟩, false, false⟩ ∧
     run_with_optional_stream
        (handle_query (.ok ([], some ⟨"c", 2, 1, 1⟩))
          (fun _ => .cancelled "part") MAX_STEPS "q" "qid" "ai" "eid" "inst"
          true none 0)
        ⟨[], [], 0⟩ 1 true true true "eid" =
      .ok ({ (⟨[], [], 0⟩ : Store) with
              msgs := Store.msgs ⟨[], [], 0⟩ ++
                [⟨1, some ⟨"c", 2, 1, 1⟩, create_human_message "q" "qid"⟩,
                 ⟨1, some ⟨"c", 2, 1, 1⟩, create_ai_message "ai" "part"⟩]
              latest_turn_number := 1 },
           [.messageInsert
              [create_human_message "q" "qid", create_ai_message "ai" "part"]
              (some ⟨"c", 2, 1, 1⟩) true],
           some [create_human_message "q" "qid",
                 create_ai_message "ai" "part"])) :=
  ⟨by rfl,
    cancellation_preserves_partial_work (fun _ => .cancelled "part") MAX_STEPS
      "q" "qid" "ai" "eid" "inst" true none 0 [] (some ⟨"c", 2, 1, 1⟩)
      (create_ai_message "ai" "part") ⟨[], [], 0⟩ 1 (by rfl)⟩

/-- Counterexample to C7 as stated: when the summary write fails
(`create_with_session_id` raises before committing), the rescue branch of
`update_user_session` still inserts the fallback message batch with
`previous_summary` pointing at the in-memory summary whose write did not
commit — the store ends with a committed message batch referencing a
summary absent from the committed summaries. -/
theorem rescue_inserts_batch_referencing_uncommitted_summary :
    (update_user_session true ⟨[], [], 0⟩ 1 [create_human_message "q" "qid"]
        (some ⟨"sum", 4, 1, 1⟩) true false true true "eid").2.1 =
      [.summaryWrite ⟨"sum", 4, 1, 1⟩ false,
       .messageInsert
         (create_fallback_messages (create_human_message "q" "qid") "eid")
         (some ⟨"sum", 4, 1, 1⟩) true] ∧
    ((update_user_session true ⟨[], [], 0⟩ 1 [create_human_message "q" "qid"]
        (some ⟨"sum", 4, 1, 1⟩) true false true true "eid").1.msgs.map
      (fun m => m.previous_summary)) =
      [some ⟨"sum", 4, 1, 1⟩, some ⟨"sum", 4, 1, 1⟩] ∧
    (update_user_session true ⟨[], [], 0⟩ 1 [create_human_message "q" "qid"]
        (some ⟨"sum", 4, 1, 1⟩) true false true true "eid").1.summaries =
      [] := by
  decide

/-- C7 (amended): when the regenerated summary's write commits, it
completes before the message insertion is attempted (the summary write
event strictly precedes the insert event) and the inserted batch
references the persisted summary; when a write in the `try` block fails,
however, the rescue path re-inserts a fallback batch referencing the
method's original in-memory summary argument. -/
theorem summary_write_precedes_message_insert
    (store : Store) (turn_number : Nat) (messages : List MsgDTO)
    (s : Summary) (insert2Ok : Bool) (error_id : String)
    (h : messages ≠ []) :
    update_user_session true store turn_number messages (some s) true true
        true insert2Ok error_id =
      ({ store with
          summaries := store.summaries ++ [s]
          msgs := store.msgs ++
            messages.map (fun m => ⟨turn_number, some s, m⟩)
          latest_turn_number := turn_number },
       [.summaryWrite s true, .messageInsert messages (some s) true],
       some messages) := by
  have hne : messages.isEmpty = false := by
    cases messages with
    | nil => exact absurd rfl h
    | cons a l => rfl
  unfold update_user_session insert_messages
  simp [hne]

/-- Witness for C7 (amended) at a concrete input. -/
theorem summary_write_precedes_message_insert_witness :
    ([create_human_message "q" "qid"] : List MsgDTO) ≠ [] ∧
    update_user_session true ⟨[], [], 0⟩ 3 [create_human_message "q" "qid"]
        (some ⟨"sum", 4, 1, 2⟩) true true true true "eid" =
      ({ (⟨[], [], 0⟩ : Store) with
          summaries := Store.summaries ⟨[], [], 0⟩ ++ [⟨"sum", 4, 1, 2⟩]
          msgs := Store.msgs ⟨[], [], 0⟩ ++
            [create_human_message "q" "qid"].map
              (fun m => ⟨3, some ⟨"sum", 4, 1, 2⟩, m⟩)
          latest_turn_number := 3 },
       [.summaryWrite ⟨"sum", 4, 1, 2⟩ true,
        .messageInsert [create_human_message "q" "qid"]
          (some ⟨"sum", 4, 1, 2⟩) true],
       some [create_human_message "q" "qid"]) :=
  ⟨by decide,
    summary_write_precedes_message_insert ⟨[], [], 0⟩ 3
      [create_human_message "q" "qid"] ⟨"sum", 4, 1, 2⟩ true "eid"
      (by decide)⟩

/-- Running the generator over serialized events followed by the sentinel:
each event is framed by `format_sse_event`, everything after the sentinel
is never pulled, and the done marker is emitted last. -/
theorem event_generator_until_sentinel (l : List String)
    (junk : List (Option String)) :
    event_generator (l.map some ++ none :: junk) =
      l.map format_sse_event ++ [format_sse_done] := by
  induction l with
  | nil => simp [event_generator]
  | cons a rest ih => simp [event_generator, ih]

/-- C9: every event pulled from the queue is emitted framed exactly as a
`data: <json>` line followed by a blank line, the generator stops pulling
at the end-of-stream sentinel (whatever follows it is ignored), and in
every outcome — success, error, cancellation — the final emitted item is
the `data: [DONE]` terminal marker. -/
theorem run_stream_frames_events_and_ends_with_done
    (streamed : List String) (outcome : RunOutcome)
    (junk : List (Option String)) :
    event_generator (run_chat_queue streamed outcome ++ junk) =
      (streamed ++ [terminal_event_json outcome]).map format_sse_event ++
        [format_sse_done] := by
  have hq : run_chat_queue streamed outcome ++ junk =
      (streamed ++ [terminal_event_json outcome]).map some ++ none :: junk := by
    simp [run_chat_queue]
  rw [hq, event_generator_until_sentinel]

end OmniAgent
